import Mathlib

/-!
# Verification of `xdf4mne.read_raw_xdf`

Shallow embedding of `src/xdf4mne/xdf.py` (function `read_raw_xdf`), which
converts a parsed XDF stream list into an MNE `Raw` recording object.

Modelling conventions:
* Parsed XDF values (the nested dict/list structure that `pyxdf` produces
  for a stream's `info["desc"]`, and the per-event values of a marker
  stream's `time_series`) are modelled by the inductive `PyVal`.
* Python exceptions relevant to this module are the constructors of `PyErr`;
  the `ValueError('No EEG stream found')` raised by the module itself is the
  distinguished constructor `PyErr.noStreamFound`, all `ValueError`s coming
  from the external libraries are `PyErr.valueError`.
* Floating-point timestamps and sample values are modelled as rationals `ℚ`
  (exact arithmetic; none of the verified claims concerns rounding).
* `info["name"][0]`, `info["type"][0]`, `int(info["channel_count"][0])` and
  `float(info["nominal_srate"][0])` are modelled as the already-unwrapped
  fields `name`, `type`, `channel_count`, `nominal_srate` of `StreamInfo`;
  `info["desc"]` is kept as an unparsed `PyVal` since the code traverses it
  dynamically under a `try/except`.
* Fallible Python code is embedded in `Except PyErr`.
-/

namespace Xdf4Mne

/-- A parsed Python value as produced by `pyxdf` for descriptor metadata and
marker event values: strings, numbers, lists, string-keyed dicts, `None`. -/
inductive PyVal where
  | str (s : String)
  | num (q : ℚ)
  | list (xs : List PyVal)
  | dict (kvs : List (String × PyVal))
  | none
deriving Repr

/-- The Python exceptions this module can raise or propagate.
`noStreamFound` is the module's own `ValueError('No EEG stream found')`
(distinguished from library `ValueError`s by its message). -/
inductive PyErr where
  | noStreamFound
  | valueError
  | typeError
  | keyError
  | indexError
deriving DecidableEq, Repr

/-- Python subscript `v[k]` with a string key: succeeds on dicts holding the
key (`KeyError` when absent), `TypeError` on every non-dict value. -/
def getItem : PyVal → String → Except PyErr PyVal
  | .dict kvs, k =>
      match kvs.lookup k with
      | some v => .ok v
      | Option.none => .error .keyError
  | .str _, _ => .error .typeError
  | .num _, _ => .error .typeError
  | .list _, _ => .error .typeError
  | .none, _ => .error .typeError

/-- Python subscript `v[i]` with an integer index: succeeds on lists when in
range (`IndexError` otherwise), yields a one-character string on strings,
`KeyError` on dicts (our dict keys are strings, so an integer key is absent),
`TypeError` on numbers and `None`. -/
def getIdx : PyVal → Nat → Except PyErr PyVal
  | .list xs, i =>
      match xs.get? i with
      | some v => .ok v
      | Option.none => .error .indexError
  | .str s, i =>
      match s.data.get? i with
      | some c => .ok (.str (String.mk [c]))
      | Option.none => .error .indexError
  | .dict _, _ => .error .keyError
  | .num _, _ => .error .typeError
  | .none, _ => .error .typeError

/-- Python iteration `for x in v`: a list yields its elements, a string its
characters, a dict its keys; numbers and `None` are not iterable. -/
def pyIter : PyVal → Except PyErr (List PyVal)
  | .list xs => .ok xs
  | .str s => .ok (s.data.map (fun c => .str (String.mk [c])))
  | .dict kvs => .ok (kvs.map (fun kv => .str kv.fst))
  | .num _ => .error .typeError
  | .none => .error .typeError

mutual
/-- Python `str(v)` (exact rendering of containers is irrelevant to the
claims; strings map to themselves, which is the case the code exercises). -/
def pyStr : PyVal → String
  | .str s => s
  | .num q => toString q
  | .none => "None"
  | .list xs => "[" ++ String.intercalate ", " (pyStrList xs) ++ "]"
  | .dict kvs => "\x7b" ++ String.intercalate ", " (pyStrKVs kvs) ++ "\x7d"

def pyStrList : List PyVal → List String
  | [] => []
  | x :: xs => pyStr x :: pyStrList xs

def pyStrKVs : List (String × PyVal) → List String
  | [] => []
  | (k, v) :: kvs => (k ++ ": " ++ pyStr v) :: pyStrKVs kvs
end

/-- The metadata of one XDF stream, with the scalar fields already unwrapped
from their pyxdf single-element lists (`info['name'][0]` etc.); `desc` is the
raw value of `info['desc']`. -/
structure StreamInfo where
  name : String
  type : String
  channel_count : Nat
  nominal_srate : ℚ
  desc : PyVal

/-- One XDF stream as returned by the external loader `pyxdf.load_xdf`:
metadata, the per-sample values (`time_series`, one entry per sample or
event) and the per-sample timestamps (`time_stamps`). -/
structure Stream where
  info : StreamInfo
  time_series : List PyVal
  time_stamps : List ℚ

/-- Python truthiness of an optional-string parameter: `None` and the empty
string are falsy, every other string is truthy (`if name_stream_eeg:`). -/
def truthyStr : Option String → Bool
  | Option.none => false
  | some s => s != ""

/-- The data-stream selection loop of `read_raw_xdf` (lines 41–51): scan in
order; when the name parameter is truthy take the first stream whose
`info['name'][0]` equals it and stop, otherwise take the first stream whose
`info['type'][0]` equals `data_type` and stop. -/
def findEEGStream : List Stream → Option String → String → Option Stream
  | [], _, _ => Option.none
  | s :: rest, nm, dt =>
      if truthyStr nm then
        if s.info.name = nm.getD "" then some s else findEEGStream rest nm dt
      else
        if s.info.type = dt then some s else findEEGStream rest nm dt

/-- The marker-stream selection loop of `read_raw_xdf` (lines 79–88): when
the marker-name parameter is truthy, append the first stream whose name
equals it and break; otherwise append every stream whose type equals
`data_type_markers` (no break). -/
def findMarkerStreams : List Stream → Option String → String → List Stream
  | [], _, _ => []
  | s :: rest, nm, dt =>
      if truthyStr nm then
        if s.info.name = nm.getD "" then [s] else findMarkerStreams rest nm dt
      else
        if s.info.type = dt then s :: findMarkerStreams rest nm dt
        else findMarkerStreams rest nm dt

/-- `str(ch["label"][0])` for one channel descriptor; any of `TypeError`,
`IndexError`, `KeyError` from the two subscripts aborts the label loop. -/
def labelOf (ch : PyVal) : Except PyErr String :=
  match getItem ch "label" with
  | .error e => .error e
  | .ok l =>
      match getIdx l 0 with
      | .error e => .error e
      | .ok v => .ok (pyStr v)

/-- The body of the label `for` loop: append `str(ch["label"][0])` for each
channel until an exception occurs; the exception is caught by the enclosing
`try/except`, keeping the labels collected so far. -/
def collectLabels : List PyVal → List String → List String
  | [], acc => acc
  | ch :: rest, acc =>
      match labelOf ch with
      | .ok s => collectLabels rest (acc ++ [s])
      | .error _ => acc

/-- The `try` block of `read_raw_xdf` (lines 59–63): walk
`info["desc"][0]["channels"][0]["channel"]`, iterate over it and collect
`str(ch["label"][0])` per channel; any caught exception leaves the labels
collected so far (possibly none). -/
def chanDescs (desc : PyVal) : Except PyErr (List PyVal) :=
  match getIdx desc 0 with
  | .error e => .error e
  | .ok d0 =>
      match getItem d0 "channels" with
      | .error e => .error e
      | .ok chs =>
          match getIdx chs 0 with
          | .error e => .error e
          | .ok c0 =>
              match getItem c0 "channel" with
              | .error e => .error e
              | .ok chspec => pyIter chspec

/-- The whole `try/except` (lines 58–63): any caught exception leaves the
labels collected so far (possibly none). -/
def extractLabels (desc : PyVal) : List String :=
  match chanDescs desc with
  | .error _ => []
  | .ok chans => collectLabels chans []

/-- The generated fallback labels `[f'EEG {n}' for n in range(n_chans)]`. -/
def genLabels (n : Nat) : List String :=
  (List.range n).map (fun i => "EEG " ++ toString i)

/-- Lines 59–66 of `read_raw_xdf`: the channel-label list actually used —
the extracted labels, or the generated placeholders when none were
extracted (`if not labels`). -/
def channelLabels (info : StreamInfo) : List String :=
  let labels := extractLabels info.desc
  if labels.isEmpty then genLabels info.channel_count else labels

/-- Error-propagating map over a list (the semantics of a Python list
comprehension or `mapM` whose body may raise): the first exception aborts
the whole computation. -/
def mapME {α β : Type} (f : α → Except PyErr β) : List α → Except PyErr (List β)
  | [] => .ok []
  | x :: xs =>
      match f x with
      | .error e => .error e
      | .ok y =>
          match mapME f xs with
          | .error e => .error e
          | .ok ys => .ok (y :: ys)

/-- One entry of the sample matrix: `np.array`/`RawArray` need a number;
anything else makes the array construction fail with a library error. -/
def numOf : PyVal → Except PyErr ℚ
  | .num q => .ok q
  | _ => .error .valueError

/-- One row of the sample matrix, as `np.array` sees it: must be a list of
numbers; anything else makes the downstream array/`RawArray` construction
fail with a library error. -/
def asNumRow : PyVal → Except PyErr (List ℚ)
  | .list xs => mapME numOf xs
  | _ => .error .valueError

/-- Transpose of a rectangular row-major matrix, the model of numpy's `.T`
on the 2-D array `np.array(time_series)`: column `j` of the input becomes
row `j` of the output. (`getD`'s default is never reached on the rectangular
matrices `npMatrixT` passes in.) -/
def npT (m : List (List ℚ)) : List (List ℚ) :=
  match m with
  | [] => []
  | r :: _ => (List.range r.length).map (fun j => m.map (fun row => row.getD j 0))

/-- `np.array(eeg_stream["time_series"]).T` (line 69): every sample must be
a numeric row and all rows must have equal length (a ragged or non-numeric
`time_series` fails in the numeric library); the result is the transposed,
channels-by-samples matrix. -/
def npMatrixT (rows : List PyVal) : Except PyErr (List (List ℚ)) :=
  match mapME asNumRow rows with
  | .error e => .error e
  | .ok [] => .ok []
  | .ok (r :: rs) =>
      if rs.all (fun row => row.length = r.length) then .ok (npT (r :: rs))
      else .error .valueError

/-- The channel-metadata record returned by the external `mne.create_info`. -/
structure MneInfo where
  ch_names : List String
  sfreq : ℚ
  ch_types : List String

/-- External `mne.create_info` (line 68): raises `ValueError` when
`ch_names` and `ch_types` have different lengths. -/
def create_info (ch_names : List String) (sfreq : ℚ) (ch_types : List String) :
    Except PyErr MneInfo :=
  if ch_names.length = ch_types.length then .ok ⟨ch_names, sfreq, ch_types⟩
  else .error .valueError

/-- One annotation of the output recording: onset relative to the data
stream's first timestamp, a duration, and the description value the module
passed in. -/
structure Annot where
  onset : ℚ
  duration : ℚ
  description : PyVal

/-- The output recording object (external `mne.io.Raw`): channel metadata,
the channels-by-samples data matrix, the `_filenames` attribute and the
ordered annotation collection. -/
structure Raw where
  info : MneInfo
  data : List (List ℚ)
  filenames : List String
  annots : List Annot

/-- External `mne.io.RawArray` (line 71): raises when the number of data
rows differs from the number of channels declared in `info`; the fresh
recording carries no annotations. -/
def RawArray (data : List (List ℚ)) (info : MneInfo) : Except PyErr Raw :=
  if data.length = info.ch_names.length then .ok ⟨info, data, [], []⟩
  else .error .valueError

/-- External `mne.Annotations` (line 98): raises when the onset, duration
and description sequences have different lengths; otherwise pairs them up
positionally. -/
def mkAnnots (onset : List ℚ) (duration : List ℚ) (description : List PyVal) :
    Except PyErr (List Annot) :=
  if onset.length = duration.length ∧ duration.length = description.length then
    .ok ((onset.zip (duration.zip description)).map
      (fun p => ⟨p.1, p.2.1, p.2.2⟩))
  else .error .valueError

/-- The description of one marker event (line 96):
`item[0] if isinstance(item, list) else item` — a list is unwrapped to its
first element (`IndexError` on an empty list), any other value is used
as-is. -/
def descOf : PyVal → Except PyErr PyVal
  | .list xs =>
      match xs.get? 0 with
      | some v => .ok v
      | Option.none => .error .indexError
  | v => .ok v

/-- Lines 94–98 for one marker stream: onsets are the stream's timestamps
shifted by the data stream's first timestamp, durations are all `0`,
descriptions come from `descOf`; the three lists are combined by the
external `Annotations` constructor. -/
def streamAnnots (ms : Stream) (first_samp : ℚ) : Except PyErr (List Annot) :=
  let onsets := ms.time_stamps.map (fun t => t - first_samp)
  match mapME descOf ms.time_series with
  | .error e => .error e
  | .ok descriptions =>
      let durations := onsets.map (fun _ => (0 : ℚ))
      mkAnnots onsets durations descriptions

/-- Line 99 for one marker stream:
`raw.set_annotations(raw.annotations + annotations)` appends the stream's
events to the recording's existing annotation collection. -/
def processMarker (raw : Raw) (ms : Stream) (first_samp : ℚ) : Except PyErr Raw :=
  match streamAnnots ms first_samp with
  | .error e => .error e
  | .ok annots => .ok { raw with annots := raw.annots ++ annots }

/-- The `for marker_stream in markers_streams` loop (lines 91–99). -/
def processAll (markers : List Stream) (first_samp : ℚ) (raw : Raw) :
    Except PyErr Raw :=
  match markers with
  | [] => .ok raw
  | ms :: rest =>
      match processMarker raw ms first_samp with
      | .error e => .error e
      | .ok r => processAll rest first_samp r

/-- Lines 57–74: derive the channel metadata from the selected stream,
build the transposed data matrix and construct the recording, then set its
`_filenames` attribute to the input file name. -/
def rawOfStream (fname : String) (s : Stream) : Except PyErr Raw :=
  let labels := channelLabels s.info
  match create_info labels s.info.nominal_srate
      (List.replicate s.info.channel_count "eeg") with
  | .error e => .error e
  | .ok info =>
      match npMatrixT s.time_series with
      | .error e => .error e
      | .ok data =>
          match RawArray data info with
          | .error e => .error e
          | .ok raw => .ok { raw with filenames := [fname] }

/-- Line 76: `first_samp = eeg_stream["time_stamps"][0]`, an unguarded
index that raises `IndexError` on an empty timestamp sequence. -/
def first_samp_of (s : Stream) : Except PyErr ℚ :=
  match s.time_stamps.head? with
  | some t => .ok t
  | Option.none => .error .indexError

/-- Lines 41–76: the data-stream half of `read_raw_xdf` — select the data
stream (raising `NoStreamFound` when none matches), build the recording and
read the alignment timestamp. -/
def dataRaw (fname : String) (streams : List Stream) (name_stream_eeg : Option String)
    (data_type : String) : Except PyErr (Raw × ℚ) :=
  match findEEGStream streams name_stream_eeg data_type with
  | Option.none => .error .noStreamFound
  | some eeg_stream =>
      match rawOfStream fname eeg_stream with
      | .error e => .error e
      | .ok raw =>
          match first_samp_of eeg_stream with
          | .error e => .error e
          | .ok first_samp => .ok (raw, first_samp)

/-- The whole of `read_raw_xdf` after the external loader call: the stream
list stands for the loader's return value, and the four optional parameters
keep their Python meaning (`None` = not provided). -/
def read_raw_xdf (fname : String) (streams : List Stream)
    (name_stream_eeg name_stream_markers : Option String)
    (data_type data_type_markers : String) : Except PyErr Raw :=
  match dataRaw fname streams name_stream_eeg data_type with
  | .error e => .error e
  | .ok rf =>
      processAll (findMarkerStreams streams name_stream_markers data_type_markers)
        rf.2 rf.1

/-! ## Helper lemmas -/

lemma mapME_ne_nsf {α β : Type} (f : α → Except PyErr β)
    (hf : ∀ a, f a ≠ Except.error PyErr.noStreamFound) (l : List α) :
    mapME f l ≠ Except.error PyErr.noStreamFound := by
  induction l with
  | nil => simp [mapME]
  | cons x xs ih =>
      simp only [mapME]
      split
      · next e he =>
          intro hc
          cases hc
          exact hf x he
      · next y hy =>
          split
          · next e he =>
              intro hc
              cases hc
              exact ih he
          · simp

lemma numOf_ne_nsf (v : PyVal) :
    numOf v ≠ Except.error PyErr.noStreamFound := by
  cases v <;> simp [numOf]

lemma asNumRow_ne_nsf (v : PyVal) :
    asNumRow v ≠ Except.error PyErr.noStreamFound := by
  cases v <;> simp only [asNumRow] <;> try simp
  next xs => exact mapME_ne_nsf numOf numOf_ne_nsf xs

lemma npMatrixT_ne_nsf (rows : List PyVal) :
    npMatrixT rows ≠ Except.error PyErr.noStreamFound := by
  simp only [npMatrixT]
  split
  · next e he =>
      intro hc
      cases hc
      exact mapME_ne_nsf asNumRow asNumRow_ne_nsf rows he
  · simp
  · next r rs hrs =>
      split <;> simp

lemma create_info_ne_nsf (ns : List String) (fs : ℚ) (ts : List String) :
    create_info ns fs ts ≠ Except.error PyErr.noStreamFound := by
  simp only [create_info]
  split <;> simp

lemma RawArray_ne_nsf (d : List (List ℚ)) (i : MneInfo) :
    RawArray d i ≠ Except.error PyErr.noStreamFound := by
  simp only [RawArray]
  split <;> simp

lemma mkAnnots_ne_nsf (os ds : List ℚ) (descs : List PyVal) :
    mkAnnots os ds descs ≠ Except.error PyErr.noStreamFound := by
  simp only [mkAnnots]
  split <;> simp

lemma descOf_ne_nsf (v : PyVal) :
    descOf v ≠ Except.error PyErr.noStreamFound := by
  cases v <;> simp only [descOf] <;> try simp
  next xs =>
    cases xs <;> simp

lemma streamAnnots_ne_nsf (ms : Stream) (fs : ℚ) :
    streamAnnots ms fs ≠ Except.error PyErr.noStreamFound := by
  simp only [streamAnnots]
  split
  · next e he =>
      intro hc
      cases hc
      exact mapME_ne_nsf descOf descOf_ne_nsf ms.time_series he
  · apply mkAnnots_ne_nsf

lemma processMarker_ne_nsf (raw : Raw) (ms : Stream) (fs : ℚ) :
    processMarker raw ms fs ≠ Except.error PyErr.noStreamFound := by
  simp only [processMarker]
  split
  · next e he =>
      intro hc
      cases hc
      exact streamAnnots_ne_nsf ms fs he
  · simp

lemma processAll_ne_nsf (markers : List Stream) (fs : ℚ) (raw : Raw) :
    processAll markers fs raw ≠ Except.error PyErr.noStreamFound := by
  induction markers generalizing raw with
  | nil => simp [processAll]
  | cons ms rest ih =>
      simp only [processAll]
      split
      · next e he =>
          intro hc
          cases hc
          exact processMarker_ne_nsf raw ms fs he
      · next r hr => exact ih r

lemma rawOfStream_ne_nsf (fname : String) (s : Stream) :
    rawOfStream fname s ≠ Except.error PyErr.noStreamFound := by
  simp only [rawOfStream]
  split
  · next e he =>
      intro hc
      cases hc
      exact create_info_ne_nsf _ _ _ he
  · next i hi =>
      split
      · next e he =>
          intro hc
          cases hc
          exact npMatrixT_ne_nsf _ he
      · next d hd =>
          split
          · next e he =>
              intro hc
              cases hc
              exact RawArray_ne_nsf _ _ he
          · simp

lemma first_samp_of_ne_nsf (s : Stream) :
    first_samp_of s ≠ Except.error PyErr.noStreamFound := by
  simp only [first_samp_of]
  split <;> simp

lemma dataRaw_nsf_iff (fname : String) (streams : List Stream)
    (nm : Option String) (dt : String) :
    dataRaw fname streams nm dt = Except.error PyErr.noStreamFound ↔
      findEEGStream streams nm dt = Option.none := by
  simp only [dataRaw]
  cases hf : findEEGStream streams nm dt with
  | none => simp
  | some s =>
      simp only [reduceCtorEq, iff_false]
      split
      · next e he =>
          intro hc
          cases hc
          exact rawOfStream_ne_nsf fname s he
      · next r hr =>
          split
          · next e he =>
              intro hc
              cases hc
              exact first_samp_of_ne_nsf s he
          · simp

/-! ## Selection-mode lemmas -/

lemma truthyStr_of_ne (n : String) (hn : n ≠ "") : truthyStr (some n) = true := by
  simp [truthyStr, hn]

lemma findEEG_name_mode (streams : List Stream) (n : String) (hn : n ≠ "")
    (dt : String) :
    findEEGStream streams (some n) dt =
      streams.find? (fun s => s.info.name == n) := by
  induction streams with
  | nil => rfl
  | cons s rest ih =>
      simp only [findEEGStream, truthyStr_of_ne n hn, if_true, Option.getD_some,
        List.find?_cons]
      by_cases hs : s.info.name = n
      · simp [hs]
      · have hb : (s.info.name == n) = false := by simp [hs]
        simp [hs, hb, ih]

lemma findEEG_falsy_mode (streams : List Stream) (nm : Option String)
    (hnm : truthyStr nm = false) (dt : String) :
    findEEGStream streams nm dt =
      streams.find? (fun s => s.info.type == dt) := by
  induction streams with
  | nil => rfl
  | cons s rest ih =>
      simp only [findEEGStream, hnm, if_false, List.find?_cons]
      by_cases hs : s.info.type = dt
      · simp [hs]
      · have hb : (s.info.type == dt) = false := by simp [hs]
        simp [hs, hb, ih]

lemma findMk_name_mode (streams : List Stream) (n : String) (hn : n ≠ "")
    (mt : String) :
    findMarkerStreams streams (some n) mt =
      (streams.find? (fun s => s.info.name == n)).toList := by
  induction streams with
  | nil => rfl
  | cons s rest ih =>
      simp only [findMarkerStreams, truthyStr_of_ne n hn, if_true,
        Option.getD_some, List.find?_cons]
      by_cases hs : s.info.name = n
      · simp [hs]
      · have hb : (s.info.name == n) = false := by simp [hs]
        simp [hs, hb, ih]

lemma findMk_falsy_mode (streams : List Stream) (nm : Option String)
    (hnm : truthyStr nm = false) (mt : String) :
    findMarkerStreams streams nm mt =
      streams.filter (fun s => s.info.type == mt) := by
  induction streams with
  | nil => rfl
  | cons s rest ih =>
      simp only [findMarkerStreams, hnm, if_false, List.filter_cons]
      by_cases hs : s.info.type = mt
      · simp [hs, ih]
      · simp [hs, ih]

lemma find?_eq_filter_head {α : Type} (p : α → Bool) (l : List α) :
    l.find? p = (l.filter p).head? := by
  induction l with
  | nil => rfl
  | cons a l ih =>
      cases ha : p a
      · rw [List.find?_cons, ha, List.filter_cons, ha]
        exact ih
      · rw [List.find?_cons, ha, List.filter_cons, ha]
        simp

/-! ## Matrix and label lemmas -/

lemma mapME_num_row (r : List ℚ) :
    mapME numOf (r.map PyVal.num) = Except.ok r := by
  induction r with
  | nil => rfl
  | cons q rest ih => simp [mapME, numOf, ih]

lemma asNumRow_num_row (r : List ℚ) :
    asNumRow (PyVal.list (r.map PyVal.num)) = Except.ok r := by
  simp [asNumRow, mapME_num_row]

lemma mapME_asNumRow_matrix (m : List (List ℚ)) :
    mapME asNumRow (m.map (fun r => PyVal.list (r.map PyVal.num))) =
      Except.ok m := by
  induction m with
  | nil => rfl
  | cons r rs ih => simp [mapME, asNumRow_num_row, ih]

lemma npMatrixT_matrix (m : List (List ℚ)) (w : ℕ) (hw : ∀ r ∈ m, r.length = w) :
    npMatrixT (m.map (fun r => PyVal.list (r.map PyVal.num))) =
      Except.ok (npT m) := by
  simp only [npMatrixT, mapME_asNumRow_matrix]
  cases m with
  | nil => simp [npT]
  | cons r rs =>
      have hall : rs.all (fun row => row.length = r.length) = true := by
        rw [List.all_eq_true]
        intro row hrow
        have h1 := hw row (by simp [hrow])
        have h2 := hw r (by simp)
        simp [h1, h2]
      simp [hall]

lemma npT_nil : npT [] = [] := rfl

lemma npT_length (m : List (List ℚ)) (w : ℕ) (hw : ∀ r ∈ m, r.length = w)
    (hm : m ≠ []) : (npT m).length = w := by
  cases m with
  | nil => exact absurd rfl hm
  | cons r rs =>
      have hr : r.length = w := hw r (List.mem_cons_self r rs)
      simp [npT, hr]

lemma npT_row_length (m : List (List ℚ)) :
    ∀ row ∈ npT m, row.length = m.length := by
  cases m with
  | nil => simp [npT]
  | cons r rs =>
      intro row hrow
      simp only [npT, List.mem_map] at hrow
      obtain ⟨j, _, rfl⟩ := hrow
      simp

lemma npT_entry (m : List (List ℚ)) (w : ℕ) (hw : ∀ r ∈ m, r.length = w)
    (i j : ℕ) (hj : j < w) :
    ((npT m).getD j []).getD i 0 = (m.getD i []).getD j 0 := by
  cases m with
  | nil => simp [npT, List.getD]
  | cons r rs =>
      have hr : r.length = w := hw r (List.mem_cons_self r rs)
      have hj' : j < r.length := by rw [hr]; exact hj
      have h1 : (npT (r :: rs)).getD j [] =
          (r :: rs).map (fun row => row.getD j 0) := by
        simp only [npT, List.getD_eq_getElem?_getD, List.getElem?_map,
          List.getElem?_range hj', Option.map_some', Option.getD_some]
      rw [h1, List.getD_eq_getElem?_getD, List.getElem?_map,
        List.getD_eq_getElem?_getD]
      cases hi : (r :: rs)[i]? with
      | none => simp [hi]
      | some row => simp [hi]

lemma genLabels_length (n : ℕ) : (genLabels n).length = n := by
  simp [genLabels]

/-! ## Marker-processing lemmas -/

lemma zip3_annots (os : List ℚ) (ds : List PyVal) :
    ((os.zip ((os.map (fun _ => (0 : ℚ))).zip ds)).map
      (fun p => (⟨p.1, p.2.1, p.2.2⟩ : Annot))) =
    List.zipWith (fun t d => (⟨t, 0, d⟩ : Annot)) os ds := by
  induction os generalizing ds with
  | nil => simp
  | cons t ts ih =>
      cases ds with
      | nil => simp
      | cons d ds =>
          simp only [List.map_cons, List.zip_cons_cons, List.zipWith_cons_cons,
            List.map_cons]
          rw [ih]

/-- The per-stream annotation list the spec describes: event `i` gets onset
`time_stamps[i] - first_samp`, duration `0` and description `ds[i]`. Stated
separately so the code-derived `streamAnnots` can be proved to refine it. -/
def alignEvents (stamps : List ℚ) (fs : ℚ) (ds : List PyVal) : List Annot :=
  List.zipWith (fun t d => ⟨t - fs, 0, d⟩) stamps ds

lemma streamAnnots_eq (ms : Stream) (fs : ℚ) (ds : List PyVal)
    (h1 : mapME descOf ms.time_series = Except.ok ds)
    (h2 : ms.time_stamps.length = ds.length) :
    streamAnnots ms fs =
      Except.ok (alignEvents ms.time_stamps fs ds) := by
  simp only [streamAnnots, h1, mkAnnots, alignEvents]
  rw [if_pos]
  · rw [zip3_annots, List.zipWith_map_left]
  · refine ⟨by simp, by simp [h2]⟩

lemma processMarker_preserves (raw : Raw) (ms : Stream) (fs : ℚ) (raw' : Raw)
    (h : processMarker raw ms fs = Except.ok raw') :
    raw'.info = raw.info ∧ raw'.data = raw.data ∧
      raw'.filenames = raw.filenames := by
  simp only [processMarker] at h
  split at h
  · cases h
  · cases h
    simp

lemma processAll_preserves (markers : List Stream) (fs : ℚ) (raw : Raw)
    (raw' : Raw) (h : processAll markers fs raw = Except.ok raw') :
    raw'.info = raw.info ∧ raw'.data = raw.data ∧
      raw'.filenames = raw.filenames := by
  induction markers generalizing raw with
  | nil =>
      simp only [processAll] at h
      cases h
      simp
  | cons ms rest ih =>
      simp only [processAll] at h
      split at h
      · cases h
      · next r hr =>
          have h1 := processMarker_preserves raw ms fs r hr
          have h2 := ih r h
          exact ⟨h2.1.trans h1.1, h2.2.1.trans h1.2.1, h2.2.2.trans h1.2.2⟩

lemma rawOfStream_shape (fname : String) (s : Stream) (raw : Raw)
    (h : rawOfStream fname s = Except.ok raw) :
    raw.info.ch_names = channelLabels s.info ∧
    raw.info.ch_names.length = s.info.channel_count ∧
    raw.data.length = s.info.channel_count ∧
    npMatrixT s.time_series = Except.ok raw.data ∧
    raw.annots = [] ∧ raw.filenames = [fname] := by
  simp only [rawOfStream] at h
  split at h
  · cases h
  · next i hi =>
      split at h
      · cases h
      · next d hd =>
          split at h
          · cases h
          · next r hr =>
              cases h
              simp only [create_info] at hi
              split at hi
              · next hlen =>
                  cases hi
                  simp only [RawArray] at hr
                  split at hr
                  · next hdl =>
                      cases hr
                      simp only [List.length_replicate] at hlen
                      exact ⟨rfl, hlen, by rw [hdl, hlen], hd, rfl, rfl⟩
                  · cases hr
              · cases hi

lemma read_ok_unpack (fname : String) (streams : List Stream)
    (nm mnm : Option String) (dt mt : String) (raw : Raw)
    (h : read_raw_xdf fname streams nm mnm dt mt = Except.ok raw) :
    ∃ s raw1 fs, findEEGStream streams nm dt = some s ∧
      rawOfStream fname s = Except.ok raw1 ∧
      first_samp_of s = Except.ok fs ∧
      processAll (findMarkerStreams streams mnm mt) fs raw1 =
        Except.ok raw := by
  simp only [read_raw_xdf] at h
  split at h
  · cases h
  · next rf hrf =>
      simp only [dataRaw] at hrf
      split at hrf
      · cases hrf
      · next s hs =>
          split at hrf
          · cases hrf
          · next raw1 hraw1 =>
              split at hrf
              · cases hrf
              · next fs hfs =>
                  cases hrf
                  exact ⟨s, raw1, fs, hs, hraw1, hfs, h⟩

/-! ## Claim C1 — data-stream selection -/

def c1empty : Stream := ⟨⟨"", "OtherType", 4, 100, PyVal.none⟩, [], []⟩

def c1eeg : Stream := ⟨⟨"DeviceB", "EEG", 4, 100, PyVal.none⟩, [], []⟩

/-- Claim C1, counterexample: with the data-stream name provided as the
empty string, the scan does NOT select the first stream whose declared name
equals that name (here `c1empty`, whose name is exactly `""`); it falls into
type mode (Python truthiness of `if name_stream_eeg:`) and selects the
EEG-typed `c1eeg` instead, consulting the declared type. -/
theorem c1_empty_name_cex :
    c1empty.info.name = "" ∧ c1eeg.info.name ≠ "" ∧
    findEEGStream [c1empty, c1eeg] (some "") "EEG" = some c1eeg :=
  ⟨rfl, by decide, rfl⟩

/-- Claim C1 (amended): when a NON-EMPTY data-stream name is provided, the
scan returns the first stream whose declared name equals it exactly, never
consulting the declared type; when the name is absent (`None`) or empty
(falsy), it returns the first stream whose declared type equals the
requested data type. The two modes are mutually exclusive. -/
theorem c1_data_stream_selection (streams : List Stream) (n : String)
    (hn : n ≠ "") (dt : String) :
    findEEGStream streams (some n) dt =
      streams.find? (fun s => s.info.name == n) ∧
    findEEGStream streams Option.none dt =
      streams.find? (fun s => s.info.type == dt) ∧
    findEEGStream streams (some "") dt =
      streams.find? (fun s => s.info.type == dt) :=
  ⟨findEEG_name_mode streams n hn dt,
   findEEG_falsy_mode streams Option.none rfl dt,
   findEEG_falsy_mode streams (some "") rfl dt⟩

/-- Witness for `c1_data_stream_selection` at a concrete input. -/
theorem c1_data_stream_selection_witness :
    findEEGStream [c1empty, c1eeg] (some "DeviceB") "EEG" =
      [c1empty, c1eeg].find? (fun s => s.info.name == "DeviceB") :=
  (c1_data_stream_selection [c1empty, c1eeg] "DeviceB" (by decide) "EEG").1

/-! ## Claim C2 — NoStreamFound -/

/-- Claim C2: `read_raw_xdf` fails with the `NoStreamFound` condition (the
module's `ValueError('No EEG stream found')`) exactly when no stream
satisfies the data-stream selection criterion; being an `Except.error`, it
carries no recording object. No other stage of the function can produce
this error. -/
theorem c2_no_stream_found (fname : String) (streams : List Stream)
    (nm mnm : Option String) (dt mt : String) :
    read_raw_xdf fname streams nm mnm dt mt =
        Except.error PyErr.noStreamFound ↔
      findEEGStream streams nm dt = Option.none := by
  simp only [read_raw_xdf]
  split
  · next e he =>
      constructor
      · intro h
        cases h
        exact (dataRaw_nsf_iff fname streams nm dt).mp he
      · intro h
        have hx := (dataRaw_nsf_iff fname streams nm dt).mpr h
        rw [he] at hx
        cases hx
        rfl
  · next rf hrf =>
      constructor
      · intro h
        exact absurd h (processAll_ne_nsf _ _ _)
      · intro h
        have hx := (dataRaw_nsf_iff fname streams nm dt).mpr h
        rw [hrf] at hx
        cases hx

/-- Witness for `c2_no_stream_found`: an empty stream list yields the
`NoStreamFound` error. -/
theorem c2_no_stream_found_witness :
    read_raw_xdf "f" [] Option.none Option.none "EEG" "Markers" =
      Except.error PyErr.noStreamFound :=
  (c2_no_stream_found "f" [] Option.none Option.none "EEG" "Markers").mpr rfl

/-! ## Claim C4 — marker-stream selection -/

def c4m1 : Stream := ⟨⟨"", "Markers", 1, 0, PyVal.none⟩, [], []⟩

def c4m2 : Stream := ⟨⟨"MkB", "Markers", 1, 0, PyVal.none⟩, [], []⟩

/-- Claim C4, counterexample: with the marker-stream name provided as the
empty string, the selection does NOT stop at the first name-equal stream
(`c4m1`, whose name is exactly `""`); Python truthiness sends it into type
mode and it selects BOTH `Markers`-typed streams, so more than one stream
is selected despite a name being given. -/
theorem c4_empty_name_cex :
    c4m1.info.name = "" ∧
    findMarkerStreams [c4m1, c4m2] (some "") "Markers" = [c4m1, c4m2] ∧
    (findMarkerStreams [c4m1, c4m2] (some "") "Markers").length = 2 :=
  ⟨rfl, rfl, rfl⟩

/-- Claim C4 (amended): when a NON-EMPTY marker-stream name is given, at
most one stream is selected — the first whose declared name equals the name
exactly; when the name is absent (`None`) or empty (falsy), ALL streams
whose declared type equals the requested marker type are selected,
asymmetrically with the single-stream data selection. -/
theorem c4_marker_stream_selection (streams : List Stream) (n : String)
    (hn : n ≠ "") (mt : String) :
    findMarkerStreams streams (some n) mt =
      (streams.find? (fun s => s.info.name == n)).toList ∧
    (findMarkerStreams streams (some n) mt).length ≤ 1 ∧
    findMarkerStreams streams Option.none mt =
      streams.filter (fun s => s.info.type == mt) ∧
    findMarkerStreams streams (some "") mt =
      streams.filter (fun s => s.info.type == mt) := by
  refine ⟨findMk_name_mode streams n hn mt, ?_,
    findMk_falsy_mode streams Option.none rfl mt,
    findMk_falsy_mode streams (some "") rfl mt⟩
  rw [findMk_name_mode streams n hn mt]
  cases streams.find? (fun s => s.info.name == n) <;> simp

/-- Witness for `c4_marker_stream_selection` at a concrete input. -/
theorem c4_marker_stream_selection_witness :
    findMarkerStreams [c4m1, c4m2] (some "MkB") "Markers" =
      ([c4m1, c4m2].find? (fun s => s.info.name == "MkB")).toList ∧
    findMarkerStreams [c4m1, c4m2] Option.none "Markers" =
      [c4m1, c4m2].filter (fun s => s.info.type == "Markers") :=
  ⟨(c4_marker_stream_selection [c4m1, c4m2] "MkB" (by decide) "Markers").1,
   (c4_marker_stream_selection [c4m1, c4m2] "MkB" (by decide) "Markers").2.2.1⟩

/-! ## Claim C3 — per-event annotation construction -/

def c3raw : Raw := ⟨⟨["EEG 0"], 100, ["eeg"]⟩, [[1]], ["f"], []⟩

def c3multi : Stream :=
  ⟨⟨"M", "Markers", 1, 0, PyVal.none⟩,
   [PyVal.list [PyVal.str "a", PyVal.str "b"]], [0]⟩

def c3one : Stream :=
  ⟨⟨"M", "Markers", 1, 0, PyVal.none⟩, [PyVal.str "x"], [3]⟩

/-- Claim C3, counterexample: an event value that is a TWO-element sequence
(`["a", "b"]`) is not "used as-is" as the claim states for values that are
not one-element sequences — the code unwraps its FIRST element, so the
resulting annotation's description is `"a"`, not the raw value. -/
theorem c3_two_element_cex :
    Except.map (fun r => r.annots.map Annot.description)
        (processMarker c3raw c3multi 0) = Except.ok [PyVal.str "a"] ∧
    PyVal.str "a" ≠ PyVal.list [PyVal.str "a", PyVal.str "b"] :=
  ⟨rfl, fun h => PyVal.noConfusion h⟩

/-- Claim C3 (amended): for every selected marker stream whose events all
yield a description (no empty-list event) and whose timestamp and event
counts agree, each event produces one annotation with onset equal to the
event timestamp minus the data stream's first timestamp (never clamped),
duration exactly `0`, and as description the FIRST element of the event
value when it is a non-empty list (an empty list raises `IndexError`), or
the raw value as-is when it is not a list. -/
theorem c3_event_annotations (raw : Raw) (ms : Stream) (fs : ℚ)
    (ds : List PyVal)
    (h1 : mapME descOf ms.time_series = Except.ok ds)
    (h2 : ms.time_stamps.length = ds.length) :
    (∀ x xs, descOf (PyVal.list (x :: xs)) = Except.ok x) ∧
    descOf (PyVal.list []) = Except.error PyErr.indexError ∧
    (∀ v, (∀ xs, v ≠ PyVal.list xs) → descOf v = Except.ok v) ∧
    processMarker raw ms fs = Except.ok
      { raw with annots := raw.annots ++ alignEvents ms.time_stamps fs ds } ∧
    alignEvents ms.time_stamps fs ds =
      List.zipWith (fun t d => (⟨t - fs, 0, d⟩ : Annot)) ms.time_stamps ds := by
  refine ⟨fun x xs => rfl, rfl, ?_, ?_, rfl⟩
  · intro v hv
    cases v
    case list xs => exact absurd rfl (hv xs)
    all_goals rfl
  · simp only [processMarker, streamAnnots_eq ms fs ds h1 h2]

/-- Witness for `c3_event_annotations` at a concrete one-event stream. -/
theorem c3_event_annotations_witness :
    processMarker c3raw c3one 3 = Except.ok
      { c3raw with annots := c3raw.annots ++
          alignEvents c3one.time_stamps 3 [PyVal.str "x"] } :=
  (c3_event_annotations c3raw c3one 3 [PyVal.str "x"] rfl rfl).2.2.2.1

/-! ## Claim C5 — annotation accumulation across marker streams -/

/-- Claim C5: when every selected marker stream's events convert
successfully, processing appends each stream's annotation list to the
recording's existing collection, so the final collection is the existing
one followed by the concatenation of the per-stream lists in loader order,
each stream's internal order preserved. -/
theorem c5_annotation_accumulation (markers : List Stream) (fs : ℚ)
    (raw : Raw) (ass : List (List Annot))
    (h : mapME (fun ms => streamAnnots ms fs) markers = Except.ok ass) :
    processAll markers fs raw =
      Except.ok { raw with annots := raw.annots ++ ass.flatten } := by
  induction markers generalizing raw ass with
  | nil =>
      simp only [mapME] at h
      cases h
      simp [processAll]
  | cons m rest ih =>
      simp only [mapME] at h
      split at h
      · cases h
      · next a ha =>
          split at h
          · cases h
          · next as2 has =>
              cases h
              simp only [processAll, processMarker, ha]
              rw [ih _ _ has]
              simp [List.append_assoc]

def c5raw : Raw :=
  ⟨⟨["EEG 0"], 100, ["eeg"]⟩, [[1]], ["f"], [⟨1, 0, PyVal.str "pre"⟩]⟩

def c5m1 : Stream :=
  ⟨⟨"M1", "Markers", 1, 0, PyVal.none⟩, [PyVal.str "a"], [5]⟩

def c5m2 : Stream :=
  ⟨⟨"M2", "Markers", 1, 0, PyVal.none⟩, [PyVal.str "b"], [7]⟩

/-- Witness for `c5_annotation_accumulation`: two one-event marker streams
appended after a pre-existing annotation. -/
def c5ass : List (List Annot) :=
  [[⟨(5 : ℚ) - 0, 0, PyVal.str "a"⟩], [⟨(7 : ℚ) - 0, 0, PyVal.str "b"⟩]]

/-- Witness for `c5_annotation_accumulation`: two one-event marker streams
appended after a pre-existing annotation. -/
theorem c5_annotation_accumulation_witness :
    processAll [c5m1, c5m2] 0 c5raw = Except.ok
      { c5raw with annots := c5raw.annots ++ c5ass.flatten } :=
  c5_annotation_accumulation [c5m1, c5m2] 0 c5raw c5ass rfl

/-! ## Claim C6 — single data stream, no markers -/

/-- Claim C6: for an input holding exactly one stream of the requested data
type and no marker-typed streams (no stream names given), a successful call
returns a recording whose channel count equals the stream's declared
`channel_count`, whose rows each have one entry per source sample (sample
count = `time_series` length), whose data matrix is the transpose `npT m`
of the source samples-by-channels matrix `m` (entrywise
`data[j][i] = m[i][j]`), and whose annotation collection is empty. -/
theorem c6_single_stream (fname : String) (streams : List Stream)
    (dt mt : String) (s : Stream) (m : List (List ℚ)) (raw : Raw)
    (hone : streams.filter (fun t => t.info.type == dt) = [s])
    (hmk : streams.filter (fun t => t.info.type == mt) = [])
    (hmat : s.time_series = m.map (fun r => PyVal.list (r.map PyVal.num)))
    (hrect : ∀ r ∈ m, r.length = s.info.channel_count)
    (hok : read_raw_xdf fname streams Option.none Option.none dt mt =
      Except.ok raw) :
    raw.data.length = s.info.channel_count ∧
    (∀ row ∈ raw.data, row.length = s.time_series.length) ∧
    raw.data = npT m ∧
    (∀ i j, j < s.info.channel_count →
      (raw.data.getD j []).getD i 0 = (m.getD i []).getD j 0) ∧
    raw.annots = [] := by
  obtain ⟨s', raw1, fs, hsel, hraw1, hfs, hproc⟩ :=
    read_ok_unpack fname streams Option.none Option.none dt mt raw hok
  have hsel2 : findEEGStream streams Option.none dt = some s := by
    rw [findEEG_falsy_mode streams Option.none rfl dt, find?_eq_filter_head,
      hone]
    rfl
  have hss : s = s' := Option.some.inj (hsel2.symm.trans hsel)
  subst hss
  have hmarkers : findMarkerStreams streams Option.none mt = [] := by
    rw [findMk_falsy_mode streams Option.none rfl mt, hmk]
  rw [hmarkers] at hproc
  simp only [processAll] at hproc
  have hr : raw1 = raw := Except.ok.inj hproc
  obtain ⟨_, hlen, hdlen, hmatT, hann, _⟩ :=
    rawOfStream_shape fname s raw1 hraw1
  rw [hr] at hdlen hmatT hann
  have hnp : npMatrixT s.time_series = Except.ok (npT m) := by
    rw [hmat]
    exact npMatrixT_matrix m s.info.channel_count hrect
  have hdata : raw.data = npT m := by
    rw [hnp] at hmatT
    exact (Except.ok.inj hmatT).symm
  refine ⟨hdlen, ?_, hdata, ?_, hann⟩
  · intro row hrow
    rw [hmat, List.length_map]
    rw [hdata] at hrow
    exact npT_row_length m row hrow
  · intro i j hj
    rw [hdata]
    exact npT_entry m s.info.channel_count hrect i j hj

def c6s : Stream :=
  ⟨⟨"Dev", "EEG", 2, 100, PyVal.none⟩,
   [PyVal.list [PyVal.num 1, PyVal.num 2],
    PyVal.list [PyVal.num 3, PyVal.num 4],
    PyVal.list [PyVal.num 5, PyVal.num 6]], [0, 1, 2]⟩

def c6m : List (List ℚ) := [[1, 2], [3, 4], [5, 6]]

def c6raw : Raw :=
  ⟨⟨["EEG 0", "EEG 1"], 100, ["eeg", "eeg"]⟩,
   [[1, 3, 5], [2, 4, 6]], ["f"], []⟩

/-- Witness for `c6_single_stream`: a 3-sample, 2-channel EEG stream. -/
theorem c6_single_stream_witness :
    c6raw.data.length = c6s.info.channel_count ∧
    (∀ row ∈ c6raw.data, row.length = c6s.time_series.length) ∧
    c6raw.data = npT c6m ∧
    (∀ i j, j < c6s.info.channel_count →
      (c6raw.data.getD j []).getD i 0 = (c6m.getD i []).getD j 0) ∧
    c6raw.annots = [] :=
  c6_single_stream "f" [c6s] "EEG" "Markers" c6s c6m c6raw rfl rfl rfl
    (by decide) rfl

/-! ## Claim C7 — channel-label fallback -/

def c7chGood : PyVal := PyVal.dict [("label", PyVal.list [PyVal.str "Cz"])]

def c7chBad : PyVal := PyVal.dict []

def c7desc : PyVal :=
  PyVal.list [PyVal.dict [("channels",
    PyVal.list [PyVal.dict [("channel", PyVal.list [c7chGood, c7chBad])]])]]

def c7s : Stream :=
  ⟨⟨"Dev", "EEG", 2, 100, c7desc⟩,
   [PyVal.list [PyVal.num 1, PyVal.num 2]], [0]⟩

/-- Claim C7, counterexample: a descriptor whose SECOND channel entry lacks
the `label` key is a structural absence at a traversal step, yet the
channel names are NOT the generated `["EEG 0", "EEG 1"]`: the partial list
`["Cz"]` collected before the failure is kept (it is non-empty, so the
fallback does not trigger), and the call then raises a library error
(`create_info` length mismatch) instead of not raising. -/
theorem c7_partial_labels_cex :
    extractLabels c7s.info.desc = ["Cz"] ∧
    channelLabels c7s.info = ["Cz"] ∧
    c7s.info.channel_count = 2 ∧
    genLabels 2 = ["EEG 0", "EEG 1"] ∧
    channelLabels c7s.info ≠ genLabels c7s.info.channel_count ∧
    read_raw_xdf "f" [c7s] Option.none Option.none "EEG" "Markers" =
      Except.error PyErr.valueError :=
  ⟨rfl, rfl, rfl, rfl, by decide, rfl⟩

/-- Claim C7 (amended): for every selected data stream whose descriptor
walk yields NO labels at all (structural absence before the first label is
extracted), the label handling raises nothing and the fallback names are
used: the constructed label list is exactly
`["EEG 0", ..., "EEG {n-1}"]`, and on any successful call the output
channel names are that generated list. (When the walk fails only after
collecting some labels, the partial list is kept instead — see the
counterexample.) -/
theorem c7_label_fallback (fname : String) (streams : List Stream)
    (nm mnm : Option String) (dt mt : String) (s : Stream) (raw : Raw)
    (hsel : findEEGStream streams nm dt = some s)
    (hnolab : extractLabels s.info.desc = [])
    (hok : read_raw_xdf fname streams nm mnm dt mt = Except.ok raw) :
    channelLabels s.info = genLabels s.info.channel_count ∧
    raw.info.ch_names = genLabels s.info.channel_count := by
  have hfb : channelLabels s.info = genLabels s.info.channel_count := by
    simp [channelLabels, hnolab]
  refine ⟨hfb, ?_⟩
  obtain ⟨s', raw1, fs, hsel', hraw1, hfs, hproc⟩ :=
    read_ok_unpack fname streams nm mnm dt mt raw hok
  have hss : s = s' := Option.some.inj (hsel.symm.trans hsel')
  subst hss
  obtain ⟨hnames, _, _, _, _, _⟩ := rawOfStream_shape fname s raw1 hraw1
  have hpres := (processAll_preserves _ fs raw1 raw hproc).1
  rw [hpres, hnames, hfb]

def c7sOk : Stream :=
  ⟨⟨"Dev", "EEG", 1, 100, PyVal.none⟩, [PyVal.list [PyVal.num 1]], [0]⟩

def c7rawOk : Raw := ⟨⟨["EEG 0"], 100, ["eeg"]⟩, [[1]], ["f"], []⟩

/-- Witness for `c7_label_fallback`: a stream with `desc = None` gets the
generated label. -/
theorem c7_label_fallback_witness :
    channelLabels c7sOk.info = genLabels c7sOk.info.channel_count ∧
    c7rawOk.info.ch_names = genLabels c7sOk.info.channel_count :=
  c7_label_fallback "f" [c7sOk] Option.none Option.none "EEG" "Markers"
    c7sOk c7rawOk rfl rfl rfl

/-! ## Claim C8 — label-list length invariant -/

def c8chBad : PyVal := PyVal.dict [("units", PyVal.list [PyVal.str "uV"])]

def c8chGood : PyVal := PyVal.dict [("label", PyVal.list [PyVal.str "Fp1"])]

def c8desc : PyVal :=
  PyVal.list [PyVal.dict [("channels",
    PyVal.list [PyVal.dict [("channel", PyVal.list [c8chGood, c8chBad])]])]]

def c8s : Stream := ⟨⟨"Dev", "EEG", 2, 100, c8desc⟩, [], []⟩

/-- Claim C8, counterexample: on a selected data stream whose descriptor
yields a label for the first channel and then fails structurally (second
channel has no `label` key), the constructed label list has length 1 while
the declared `channel_count` is 2 — the claimed invariant fails exactly on
the "partial labels" inputs the claim includes. -/
theorem c8_partial_length_cex :
    findEEGStream [c8s] Option.none "EEG" = some c8s ∧
    (channelLabels c8s.info).length = 1 ∧
    c8s.info.channel_count = 2 ∧
    (channelLabels c8s.info).length ≠ c8s.info.channel_count :=
  ⟨rfl, rfl, rfl, by decide⟩

/-- Claim C8 (amended): the constructed channel-label list has length equal
to the declared `channel_count` whenever the descriptor walk yields no
labels (the generated fallback); when the walk yields a non-empty label
list, that list is used as-is, so its length is the number of successfully
extracted labels, which need not equal `channel_count`. -/
theorem c8_label_list_length (info : StreamInfo) :
    (extractLabels info.desc = [] →
      (channelLabels info).length = info.channel_count) ∧
    (extractLabels info.desc ≠ [] →
      channelLabels info = extractLabels info.desc) := by
  constructor
  · intro h
    simp [channelLabels, h, genLabels_length]
  · intro h
    simp [channelLabels, h]

def c8infoA : StreamInfo := ⟨"a", "EEG", 3, 100, PyVal.none⟩

def c8descB : PyVal :=
  PyVal.list [PyVal.dict [("channels",
    PyVal.list [PyVal.dict [("channel", PyVal.list [c8chGood])]])]]

def c8infoB : StreamInfo := ⟨"b", "EEG", 3, 100, c8descB⟩

/-- Witness for `c8_label_list_length`: both modes at concrete inputs. -/
theorem c8_label_list_length_witness :
    (channelLabels c8infoA).length = c8infoA.channel_count ∧
    channelLabels c8infoB = extractLabels c8infoB.desc :=
  ⟨(c8_label_list_length c8infoA).1 rfl,
   (c8_label_list_length c8infoB).2 (by decide)⟩

/-! ## Claim C9 — absent marker-stream match -/

def c9sd : Stream :=
  ⟨⟨"Dev", "EEG", 1, 100, PyVal.none⟩, [PyVal.list [PyVal.num 2]], [4]⟩

def c9rawOut : Raw := ⟨⟨["EEG 0"], 100, ["eeg"]⟩, [[2]], ["f"], []⟩

/-- Claim C9, counterexample: requesting a marker stream by a name that no
stream carries does NOT propagate any error, low-level or otherwise — the
call succeeds and returns the recording with an empty annotation
collection. -/
theorem c9_absent_marker_cex :
    read_raw_xdf "f" [c9sd] Option.none (some "NoSuch") "EEG" "Markers" =
      Except.ok c9rawOut ∧
    c9rawOut.annots = [] :=
  ⟨rfl, rfl⟩

/-- Claim C9 (amended): an absent marker-stream match is silently ignored,
not an error: when no stream matches the marker criterion, the call behaves
exactly as the data-only pipeline (the marker loop body never runs), and
any recording it returns carries no annotations. -/
theorem c9_absent_marker_silent (fname : String) (streams : List Stream)
    (nm mnm : Option String) (dt mt : String)
    (h : findMarkerStreams streams mnm mt = []) :
    read_raw_xdf fname streams nm mnm dt mt =
      Except.map Prod.fst (dataRaw fname streams nm dt) ∧
    (∀ raw, read_raw_xdf fname streams nm mnm dt mt = Except.ok raw →
      raw.annots = []) := by
  constructor
  · cases hd : dataRaw fname streams nm dt with
    | error e => simp [read_raw_xdf, hd, Except.map]
    | ok rf => simp [read_raw_xdf, hd, h, processAll, Except.map]
  · intro raw hok
    obtain ⟨s', raw1, fs, _, hraw1, _, hproc⟩ :=
      read_ok_unpack fname streams nm mnm dt mt raw hok
    rw [h] at hproc
    simp only [processAll] at hproc
    have hr : raw1 = raw := Except.ok.inj hproc
    obtain ⟨_, _, _, _, hann, _⟩ := rawOfStream_shape fname s' raw1 hraw1
    rw [hr] at hann
    exact hann

/-- Witness for `c9_absent_marker_silent` at a concrete input. -/
theorem c9_absent_marker_silent_witness :
    read_raw_xdf "f9" [c9sd] Option.none (some "Absent") "EEG" "Markers" =
      Except.map Prod.fst (dataRaw "f9" [c9sd] Option.none "EEG") :=
  (c9_absent_marker_silent "f9" [c9sd] Option.none (some "Absent")
    "EEG" "Markers" rfl).1

/-! ## Claim C10 — unguarded first-timestamp access -/

def c10d : Stream :=
  ⟨⟨"Dev", "EEG", 1, 100, PyVal.none⟩, [PyVal.list [PyVal.num 1]], [0]⟩

def c10m : Stream :=
  ⟨⟨"M", "Markers", 1, 0, PyVal.none⟩, [PyVal.list []], [0]⟩

/-- Claim C10, counterexample: the function is NOT total when the selected
data stream has at least one timestamp — here the data stream's
`time_stamps` is non-empty, yet the call fails with an unhandled
`IndexError` raised DURING marker processing (an empty-list event value hits
`item[0]`). -/
theorem c10_not_total_cex :
    c10d.time_stamps ≠ [] ∧
    findEEGStream [c10d, c10m] Option.none "EEG" = some c10d ∧
    read_raw_xdf "f" [c10d, c10m] Option.none Option.none "EEG" "Markers" =
      Except.error PyErr.indexError :=
  ⟨by decide, rfl, rfl⟩

/-- Claim C10 (amended): the unguarded `time_stamps[0]` access itself is
total exactly on streams with at least one timestamp — it fails with
`IndexError` iff `time_stamps` is empty and yields the first timestamp
otherwise — and when the selected data stream has empty `time_stamps` (and
the recording construction succeeded, so that line 76 is reached), the
whole call fails with `IndexError` no matter what marker arguments or
marker streams are present, i.e. before any marker processing. The
function as a whole is NOT total under the non-empty-timestamp
precondition (see the counterexample). -/
theorem c10_first_timestamp :
    (∀ s : Stream, first_samp_of s = Except.error PyErr.indexError ↔
      s.time_stamps = []) ∧
    (∀ (s : Stream) (t : ℚ) (ts : List ℚ), s.time_stamps = t :: ts →
      first_samp_of s = Except.ok t) ∧
    (∀ (fname : String) (streams : List Stream) (nm mnm : Option String)
      (dt mt : String) (s : Stream),
      findEEGStream streams nm dt = some s →
      (∃ raw1, rawOfStream fname s = Except.ok raw1) →
      s.time_stamps = [] →
      read_raw_xdf fname streams nm mnm dt mt =
        Except.error PyErr.indexError) := by
  refine ⟨?_, ?_, ?_⟩
  · intro s
    cases hts : s.time_stamps <;> simp [first_samp_of, hts]
  · intro s t ts h
    simp [first_samp_of, h]
  · intro fname streams nm mnm dt mt s hsel hraw hempty
    obtain ⟨raw1, hraw1⟩ := hraw
    simp [read_raw_xdf, dataRaw, hsel, hraw1, first_samp_of, hempty]

def c10e : Stream :=
  ⟨⟨"Dev", "EEG", 1, 100, PyVal.none⟩, [PyVal.list [PyVal.num 1]], []⟩

/-- Witness for `c10_first_timestamp` at concrete inputs. -/
theorem c10_first_timestamp_witness :
    read_raw_xdf "f" [c10e] Option.none Option.none "EEG" "Markers" =
      Except.error PyErr.indexError ∧
    first_samp_of c10e = Except.error PyErr.indexError ∧
    first_samp_of c10d = Except.ok 0 :=
  ⟨c10_first_timestamp.2.2 "f" [c10e] Option.none Option.none "EEG"
      "Markers" c10e rfl ⟨_, rfl⟩ rfl,
   (c10_first_timestamp.1 c10e).mpr rfl,
   c10_first_timestamp.2.1 c10d 0 [] rfl⟩

end Xdf4Mne
